import Mathlib

/-
Verification of the Telegram relay webhook (app.py) against its
natural-language specification.

The source is a single Flask handler.  We embed it shallowly:

* JSON values become the inductive type `Json`; Python dictionary access
  `payload.get(k)` on a non-dictionary raises AttributeError, which we model
  as `Except.error`; a missing key or a JSON null both yield Python `None`,
  modelled as `Json.null`.
* The outbound Telegram API posts become entries of a call list `ApiCall`.
* The network is an oracle `Network` telling the handler whether the single
  relay dispatch succeeds, returns a non-ok status, or raises; best-effort
  notification posts are wrapped in try/except pass in the source, so their
  own failure (the `notifyFails` oracle field) cannot influence the result.
* The handler result is either an HTTP response with a status code and the
  list of attempted outbound calls, or an uncaught Python exception
  (which Flask turns into a 500, i.e. not a success response).
* Startup (environment validation, lines 30-45 of app.py) is `startup`.
-/

namespace App

/-- JSON values as parsed by the Python json module (numbers restricted to
integers, which is what Telegram identifiers are). -/
inductive Json where
  | null : Json
  | bool (b : Bool) : Json
  | num (n : Int) : Json
  | str (s : String) : Json
  | arr (elems : List Json) : Json
  | obj (fields : List (String × Json)) : Json

/-- Lookup of a key in a JSON object field list (Python dict lookup). -/
def lookupField : List (String × Json) → String → Option Json
  | [], _ => none
  | (k, v) :: rest, key => if k == key then some v else lookupField rest key

/-- Python truthiness of a parsed JSON value: None, False, 0, empty string,
empty list and empty dict are falsy. -/
def Json.falsy : Json → Bool
  | .null => true
  | .bool b => !b
  | .num n => n == 0
  | .str s => s == ""
  | .arr elems => elems.isEmpty
  | .obj fields => fields.isEmpty

/-- Python test `x is None` on a value coming from JSON. -/
def Json.isNull : Json → Bool
  | .null => true
  | _ => false

/-- Whether a parsed JSON value is hashable in Python: lists and dicts are
not, so using one as the probe of a set membership test raises TypeError. -/
def Json.hashable : Json → Bool
  | .arr _ => false
  | .obj _ => false
  | _ => true

/-- Python equality `j == n` between a JSON value and an int, as used by set
membership and set difference in app.py (bools compare equal to 0/1). -/
def pyEqInt (j : Json) (n : Int) : Bool :=
  match j with
  | .num m => m == n
  | .bool b => (if b then (1 : Int) else 0) == n
  | _ => false

/-- Process-wide configuration read from the environment at startup
(BOT_TOKEN, USER_A_ID, USER_B_ID, USE_COPY, REPLY_UNAUTHORIZED);
read-only after startup. -/
structure Config where
  botToken : String
  userA : Int
  userB : Int
  useCopy : Bool
  replyUnauthorized : Bool

/-- The Python set literal of line 42, allowed_ids = set of int(USER_A) and
int(USER_B), exposed as a duplicate-free list. -/
def allowed_ids (cfg : Config) : List Int :=
  if cfg.userA == cfg.userB then [cfg.userA] else [cfg.userA, cfg.userB]

/-- Python membership test `sender_id in allowed_ids` (line 85) for a
hashable probe.  On an unhashable probe (list or dict) the membership test
itself raises TypeError; that raise is modelled in afterExtract, which
consults Json.hashable before this function. -/
def inAllowed (cfg : Config) (sender_id : Json) : Bool :=
  (allowed_ids cfg).any (fun r => pyEqInt sender_id r)

/-- Recipient resolution, lines 99-107: recipients = list(allowed_ids minus
the singleton of sender_id); return 200 with no action when empty or when
recipients[0] equals the sender, otherwise recipients[0]. -/
def resolveRecipient (cfg : Config) (sender_id : Json) : Option Int :=
  match (allowed_ids cfg).filter (fun r => !(pyEqInt sender_id r)) with
  | [] => none
  | recipient_id :: _ =>
      if pyEqInt sender_id recipient_id then none else some recipient_id

/-- One attempted outbound HTTP post to the Telegram API. -/
inductive ApiCall where
  | sendMessage (chat_id : Json) (text : String) : ApiCall
  | copyMessage (chat_id from_chat_id message_id : Json) : ApiCall
  | forwardMessage (chat_id from_chat_id message_id : Json) : ApiCall

/-- Whether a call is the relay dispatch (copyMessage or forwardMessage)
rather than a plain text notification. -/
def isRelayCall : ApiCall → Bool
  | .copyMessage _ _ _ => true
  | .forwardMessage _ _ _ => true
  | .sendMessage _ _ => false

def unauthorizedText : String := "You are not authorized to use this bot."

def deliveryFailedText : String := "Failed to deliver the message to the other user."

def internalErrorText : String := "An internal error occurred while forwarding your message."

/-- The relay dispatch call of lines 110-124: copyMessage when USE_COPY,
forwardMessage otherwise, both with chat_id = recipient, from_chat_id =
the chat id of the message and message_id. -/
def dispatchCall (cfg : Config) (recipient_id : Int) (chat_id message_id : Json) : ApiCall :=
  if cfg.useCopy then
    .copyMessage (.num recipient_id) chat_id message_id
  else
    .forwardMessage (.num recipient_id) chat_id message_id

/-- Outcome of the relay dispatch post of line 126: 2xx response, non-ok
HTTP response, or a raised exception (timeout, transport failure). -/
inductive DispatchOutcome where
  | ok : DispatchOutcome
  | httpError : DispatchOutcome
  | exn : DispatchOutcome

/-- Network oracle: behaviour of the provider for this request.
notifyFails tells whether best-effort notification posts raise; the source
wraps each of them in try/except pass, so the field is never consulted. -/
structure Network where
  dispatchOutcome : DispatchOutcome
  notifyFails : Bool

/-- Result of one handler invocation: an HTTP response carrying the list of
attempted outbound calls, or an uncaught Python exception (Flask then
produces a 500 response, not a success). -/
inductive HandlerResult where
  | response (status : Nat) (calls : List ApiCall) : HandlerResult
  | pyException (calls : List ApiCall) : HandlerResult

/-- Whether a handler result is a success (HTTP 200) response. -/
def isSuccess : HandlerResult → Bool
  | .response 200 _ => true
  | _ => false

/-- Line 69, payload.get("message"): AttributeError when the parsed body is
not a JSON object; otherwise the value of the key, None when absent. -/
def getMessage (payload : Json) : Except Unit Json :=
  match payload with
  | .obj fields => .ok ((lookupField fields "message").getD .null)
  | _ => .error ()

/-- Lines 74-78: extract sender id, chat id and message id.  Faithful to
Python evaluation order: message.get raises when message is not a dict,
from_user.get raises when the "from" value is present but not a dict, and
likewise for "chat"; a missing key or JSON null becomes Json.null. -/
def extractIds (message : Json) : Except Unit (Json × Json × Json) :=
  match message with
  | .obj fields =>
      match (lookupField fields "from").getD (.obj []) with
      | .obj fromFields =>
          let sender_id := (lookupField fromFields "id").getD .null
          match (lookupField fields "chat").getD (.obj []) with
          | .obj chatFields =>
              let chat_id := (lookupField chatFields "id").getD .null
              let message_id := (lookupField fields "message_id").getD .null
              .ok (sender_id, chat_id, message_id)
          | _ => .error ()
      | _ => .error ()
  | _ => .error ()

/-- Lines 80-149 of webhook_handler, after field extraction: missing-field
check, authorization with optional polite reply, recipient resolution with
defensive degeneracy checks, dispatch and its failure handling.  The
membership test of line 85 raises TypeError when the sender id is an
unhashable JSON value (list or dict); every other path returns status
200. -/
def afterExtract (cfg : Config) (sender_id chat_id message_id : Json)
    (net : Network) : HandlerResult :=
  if sender_id.isNull || message_id.isNull || chat_id.isNull then
    .response 200 []
  else if sender_id.hashable = false then
    .pyException []
  else if inAllowed cfg sender_id = false then
    .response 200
      (if cfg.replyUnauthorized then [ApiCall.sendMessage sender_id unauthorizedText] else [])
  else
    match resolveRecipient cfg sender_id with
    | none => .response 200 []
    | some recipient_id =>
        let call := dispatchCall cfg recipient_id chat_id message_id
        match net.dispatchOutcome with
        | .ok => .response 200 [call]
        | .httpError => .response 200 [call, ApiCall.sendMessage sender_id deliveryFailedText]
        | .exn => .response 200 [call, ApiCall.sendMessage sender_id internalErrorText]

/-- Lines 69-149: the body of webhook_handler on a successfully parsed JSON
value. -/
def handleParsed (cfg : Config) (payload : Json) (net : Network) : HandlerResult :=
  match getMessage payload with
  | .error _ => .pyException []
  | .ok message =>
      if message.falsy then .response 200 []
      else
        match extractIds message with
        | .error _ => .pyException []
        | .ok (sender_id, chat_id, message_id) =>
            afterExtract cfg sender_id chat_id message_id net

/-- The webhook handler of lines 58-149.  The body argument is none when
request.get_json raises (unparseable body, answered with 400), otherwise
the parsed JSON value. -/
def webhook_handler (cfg : Config) (body : Option Json) (net : Network) : HandlerResult :=
  match body with
  | none => .response 400 []
  | some payload => handleParsed cfg payload net

/-- The handler as an explicit state transformer over the process-wide
configuration: the source reads the globals BOT_TOKEN, USE_COPY,
REPLY_UNAUTHORIZED and allowed_ids and contains no assignment to any of
them, so the state component is returned unchanged. -/
def webhook_handler_state (st : Config) (body : Option Json) (net : Network) :
    Config × HandlerResult :=
  (st, webhook_handler st body net)

/-- Raw environment at process start: BOT_TOKEN, USER_A_ID, USER_B_ID
(none when the variable is unset). -/
structure Env where
  botToken : Option String
  userAId : Option String
  userBId : Option String

/-- Python truthiness of os.environ.get: unset or empty string is falsy. -/
def pyTruthy (s : Option String) : Bool :=
  match s with
  | none => false
  | some v => v != ""

/-- Models Python int() on strings of an optional sign followed by decimal
digits, the forms the startup configuration uses; none is ValueError. -/
def pyIntDigits : List Char → Option Nat
  | [] => none
  | cs => cs.foldl
      (fun acc c => acc.bind (fun n => if c.isDigit then some (n * 10 + (c.toNat - 48)) else none))
      (some 0)

/-- Python int() on a configuration string (optional sign, decimal digits). -/
def pyInt (s : String) : Option Int :=
  match s.toList with
  | [] => none
  | '-' :: rest => (pyIntDigits rest).map (fun n => -(n : Int))
  | '+' :: rest => (pyIntDigits rest).map (fun n => (n : Int))
  | cs => (pyIntDigits cs).map (fun n => (n : Int))

/-- Startup validation, lines 37-45: SystemExit (none) when BOT_TOKEN,
USER_A_ID or USER_B_ID is unset or empty, or when an id does not parse as
an integer; otherwise the allowed_ids set, a duplicate-free list. -/
def startup (env : Env) : Option (List Int) :=
  if !(pyTruthy env.botToken) || !(pyTruthy env.userAId) || !(pyTruthy env.userBId) then
    none
  else
    match env.userAId, env.userBId with
    | some a, some b =>
        match pyInt a, pyInt b with
        | some ia, some ib => some (if ia == ib then [ia] else [ia, ib])
        | _, _ => none
    | _, _ => none

end App

namespace App

/-- C7: for every request body that cannot be parsed as JSON, the handler
responds with status 400 and issues zero outbound calls. -/
theorem invalid_json_400 (cfg : Config) (net : Network) :
    webhook_handler cfg none net = .response 400 [] := rfl

/-- C9: no process-wide shared state is written by a handler invocation:
as a state transformer over the configuration, the handler returns the
state unchanged, so the allowed-identity set, the token and the mode
toggles are identical before and after every request. -/
theorem handler_preserves_state (st : Config) (body : Option Json) (net : Network) :
    (webhook_handler_state st body net).1 = st ∧
      allowed_ids (webhook_handler_state st body net).1 = allowed_ids st ∧
      (webhook_handler_state st body net).1.botToken = st.botToken ∧
      (webhook_handler_state st body net).1.useCopy = st.useCopy ∧
      (webhook_handler_state st body net).1.replyUnauthorized = st.replyUnauthorized :=
  ⟨rfl, rfl, rfl, rfl, rfl⟩

/-- C1: when the two configured identities are distinct and the sender is a
member of the allowed set, the recipient the handler resolves is the other
member, and it is never equal to the sender. -/
theorem recipient_is_other (cfg : Config) (s : Int)
    (hne : cfg.userA ≠ cfg.userB) (hmem : s = cfg.userA ∨ s = cfg.userB) :
    resolveRecipient cfg (Json.num s) =
        some (if s = cfg.userA then cfg.userB else cfg.userA) ∧
      (if s = cfg.userA then cfg.userB else cfg.userA) ≠ s := by
  have hAB : (cfg.userA == cfg.userB) = false := by simp [hne]
  rcases hmem with h | h
  · subst h
    constructor
    · simp [resolveRecipient, allowed_ids, pyEqInt, hAB]
    · simp
      exact fun he => hne he.symm
  · subst h
    have hne' : ¬(cfg.userB = cfg.userA) := fun he => hne he.symm
    constructor
    · simp [resolveRecipient, allowed_ids, pyEqInt, hAB, hne']
    · simp [hne']
      exact hne

theorem recipient_is_other_witness :
    ((Config.mk "t" 111 222 true true).userA ≠ (Config.mk "t" 111 222 true true).userB) ∧
      (resolveRecipient (Config.mk "t" 111 222 true true) (Json.num 111) =
          some (if (111 : Int) = (Config.mk "t" 111 222 true true).userA
            then (Config.mk "t" 111 222 true true).userB
            else (Config.mk "t" 111 222 true true).userA) ∧
        (if (111 : Int) = (Config.mk "t" 111 222 true true).userA
            then (Config.mk "t" 111 222 true true).userB
            else (Config.mk "t" 111 222 true true).userA) ≠ 111) :=
  ⟨by decide, recipient_is_other (Config.mk "t" 111 222 true true) 111 (by decide) (Or.inl rfl)⟩

end App

namespace App

/-- C8 counterexample: with both identity variables set to the same value
"111" the process starts anyway, with a one-element allowed set, instead of
refusing to start. -/
theorem startup_equal_ids_accepted :
    startup (Env.mk (some "token") (some "111") (some "111")) = some [111] ∧
      startup (Env.mk (some "token") (some "111") (some "111")) ≠ none := by
  constructor
  · rfl
  · rw [show startup (Env.mk (some "token") (some "111") (some "111")) = some [111] from rfl]
    exact fun h => Option.noConfusion h

/-- C8 amended: startup validation only checks that the three variables are
present, non-empty and that the two identities parse as integers; when the
two identity values are equal the process still starts, with a one-element
allowed set (degeneracy is handled later by the defensive checks of the
handler, not at startup). -/
theorem startup_equal_ids_starts (t a : String) (ia : Int)
    (ht : t ≠ "") (ha : a ≠ "") (hp : pyInt a = some ia) :
    startup (Env.mk (some t) (some a) (some a)) = some [ia] := by
  simp [startup, pyTruthy, ht, ha, hp]

theorem startup_equal_ids_starts_witness :
    ("token" : String) ≠ "" ∧ ("111" : String) ≠ "" ∧ pyInt "111" = some 111 ∧
      startup (Env.mk (some "token") (some "111") (some "111")) = some [111] :=
  ⟨by decide, by decide, rfl,
    startup_equal_ids_starts "token" "111" 111 (by decide) (by decide) rfl⟩

/-- C10: a payload whose message field is present but falsy (empty object,
null, false, 0, empty string, empty array) is acknowledged with 200 and
zero outbound calls, exactly like a payload with no message field. -/
theorem falsy_message_ignored (cfg : Config) (net : Network)
    (fields : List (String × Json)) (v : Json)
    (hlook : lookupField fields "message" = some v) (hf : v.falsy = true) :
    webhook_handler cfg (some (.obj fields)) net = .response 200 [] := by
  simp [webhook_handler, handleParsed, getMessage, hlook, hf]

theorem falsy_message_ignored_witness :
    lookupField [("message", Json.obj [])] "message" = some (Json.obj []) ∧
      (Json.obj []).falsy = true ∧
      webhook_handler (Config.mk "t" 111 222 true true)
          (some (.obj [("message", Json.obj [])])) (Network.mk .ok false) =
        .response 200 [] :=
  ⟨rfl, rfl,
    falsy_message_ignored (Config.mk "t" 111 222 true true) (Network.mk .ok false)
      [("message", Json.obj [])] (Json.obj []) rfl rfl⟩

end App

namespace App

/-- A membership test that answers true has a hashable probe: only num and
bool values can compare equal to an int in the allowed set. -/
theorem hashable_of_inAllowed (cfg : Config) (s : Json)
    (h : inAllowed cfg s = true) : s.hashable = true := by
  rw [inAllowed, List.any_eq_true] at h
  obtain ⟨r, _, hr⟩ := h
  cases s <;> first | rfl | simp [pyEqInt] at hr

/-- When a null field short-circuits before the membership test, the
handler acknowledges with 200 and no calls. -/
theorem afterExtract_null (cfg : Config) (s c m : Json) (net : Network)
    (h : (s.isNull || m.isNull || c.isNull) = true) :
    afterExtract cfg s c m net = .response 200 [] := by
  unfold afterExtract
  rw [if_pos h]

/-- Every post-extraction path on which the sender id is hashable (so the
membership test of line 85 does not raise) answers with status 200. -/
theorem afterExtract_status (cfg : Config) (s c m : Json) (net : Network)
    (hhash : s.hashable = true) :
    ∃ calls, afterExtract cfg s c m net = .response 200 calls := by
  unfold afterExtract
  split
  · exact ⟨_, rfl⟩
  split
  · next hf => simp [hhash] at hf
  split
  · exact ⟨_, rfl⟩
  split
  · exact ⟨_, rfl⟩
  cases net.dispatchOutcome <;> exact ⟨_, rfl⟩

/-- C3 counterexample: the body consisting of the empty JSON array parses
successfully, yet the handler does not return a success response: the
attribute access payload.get raises, producing a server error. -/
theorem nonobject_body_raises :
    isSuccess (webhook_handler (Config.mk "t" 111 222 true true) (some (Json.arr []))
        (Network.mk .ok false)) = false ∧
      webhook_handler (Config.mk "t" 111 222 true true) (some (Json.arr []))
          (Network.mk .ok false) = .pyException [] :=
  ⟨rfl, rfl⟩

/-- C3 amended: for every request body that parses as a JSON object and
whose message value, when truthy, has the dictionary shape the field
accesses expect and either a null field (sender, chat or message id) or a
hashable sender id, the handler returns status 200; no post-parse path on
such bodies produces a non-success response.  Bodies outside this shape
raise an uncaught exception (AttributeError on a non-dict access, or
TypeError on an unhashable sender id in the line 85 membership test)
instead of a success response. -/
theorem success_after_parse_when_shaped (cfg : Config) (net : Network) (payload msg : Json)
    (hmsg : getMessage payload = .ok msg)
    (hshape : msg.falsy = true ∨
      ∃ s c m, extractIds msg = .ok (s, c, m) ∧
        (s.isNull || c.isNull || m.isNull || s.hashable) = true) :
    ∃ calls, webhook_handler cfg (some payload) net = .response 200 calls := by
  rcases hshape with hfal | ⟨s, c, m, hex, hok⟩
  · exact ⟨[], by simp [webhook_handler, handleParsed, hmsg, hfal]⟩
  · cases hfal : msg.falsy
    · have hred : webhook_handler cfg (some payload) net = afterExtract cfg s c m net := by
        simp [webhook_handler, handleParsed, hmsg, hfal, hex]
      rw [hred]
      cases hsn : s.isNull with
      | true => exact ⟨[], afterExtract_null cfg s c m net (by rw [hsn]; rfl)⟩
      | false =>
        cases hcn : c.isNull with
        | true => exact ⟨[], afterExtract_null cfg s c m net (by rw [hcn]; simp)⟩
        | false =>
          cases hmn : m.isNull with
          | true => exact ⟨[], afterExtract_null cfg s c m net (by rw [hmn]; simp)⟩
          | false =>
            have hhash : s.hashable = true := by
              rw [hsn, hcn, hmn] at hok
              simpa using hok
            exact afterExtract_status cfg s c m net hhash
    · exact ⟨[], by simp [webhook_handler, handleParsed, hmsg, hfal]⟩

theorem success_after_parse_when_shaped_witness :
    getMessage (Json.obj []) = Except.ok Json.null ∧
      (Json.null.falsy = true ∨
        ∃ s c m, extractIds Json.null = Except.ok (s, c, m) ∧
          (s.isNull || c.isNull || m.isNull || s.hashable) = true) ∧
      ∃ calls, webhook_handler (Config.mk "t" 111 222 true true) (some (Json.obj []))
          (Network.mk .ok false) = .response 200 calls :=
  ⟨rfl, Or.inl rfl,
    success_after_parse_when_shaped (Config.mk "t" 111 222 true true) (Network.mk .ok false)
      (Json.obj []) Json.null rfl (Or.inl rfl)⟩

/-- C6: a parsed payload with no message field, and a payload whose message
lacks the sender id, the chat id or the message id, is acknowledged with
200 and zero outbound calls. -/
theorem missing_fields_ignored (cfg : Config) (net : Network) (payload msg s c m : Json)
    (hmsg : getMessage payload = .ok msg)
    (hcase : msg = .null ∨
      (msg.falsy = false ∧ extractIds msg = .ok (s, c, m) ∧
        (s = .null ∨ c = .null ∨ m = .null))) :
    webhook_handler cfg (some payload) net = .response 200 [] := by
  rcases hcase with h | ⟨hfal, hex, hnull⟩
  · subst h
    simp [webhook_handler, handleParsed, hmsg, Json.falsy]
  · have hred : webhook_handler cfg (some payload) net = afterExtract cfg s c m net := by
      simp [webhook_handler, handleParsed, hmsg, hfal, hex]
    rw [hred]
    unfold afterExtract
    rcases hnull with h | h | h <;> subst h <;> simp [Json.isNull]

theorem missing_fields_ignored_witness :
    getMessage (Json.obj []) = Except.ok Json.null ∧
      (Json.null = Json.null ∨
        (Json.null.falsy = false ∧ extractIds Json.null = Except.ok (.null, .null, .null) ∧
          (Json.null = Json.null ∨ Json.null = Json.null ∨ Json.null = Json.null))) ∧
      webhook_handler (Config.mk "t" 111 222 true true) (some (Json.obj []))
          (Network.mk .ok false) = .response 200 [] :=
  ⟨rfl, Or.inl rfl,
    missing_fields_ignored (Config.mk "t" 111 222 true true) (Network.mk .ok false)
      (Json.obj []) Json.null .null .null .null rfl (Or.inl rfl)⟩

end App

namespace App

/-- Concrete Telegram update with sender id s, chat id c and message id m,
used to instantiate the theorems on a concrete input. -/
def exampleMessage (s c m : Int) : Json :=
  Json.obj [("from", Json.obj [("id", Json.num s)]),
    ("chat", Json.obj [("id", Json.num c)]), ("message_id", Json.num m)]

/-- Concrete webhook payload wrapping exampleMessage. -/
def exampleUpdate (s c m : Int) : Json :=
  Json.obj [("message", exampleMessage s c m)]

/-- Concrete webhook payload whose message carries the unhashable sender
id given by the empty JSON array. -/
def badSenderUpdate : Json :=
  Json.obj [("message", Json.obj
    [("from", Json.obj [("id", Json.arr [])]),
      ("chat", Json.obj [("id", Json.num 1)]),
      ("message_id", Json.num 2)])]

/-- C4 counterexample: a payload whose message carries the unhashable
sender id [] (certainly not a member of the allowed set) does not get a
success response: the set membership test of line 85 raises TypeError on
the unhashable probe, producing a server error, with zero outbound
calls. -/
theorem unhashable_sender_raises :
    isSuccess (webhook_handler (Config.mk "t" 111 222 true true) (some badSenderUpdate)
        (Network.mk .ok false)) = false ∧
      webhook_handler (Config.mk "t" 111 222 true true) (some badSenderUpdate)
          (Network.mk .ok false) = .pyException [] :=
  ⟨rfl, rfl⟩

/-- C4 amended: a payload whose sender id is a hashable value (not a JSON
array or object) outside the allowed set is acknowledged with 200; with
the reply toggle enabled exactly one sendMessage call goes to that sender,
with it disabled no outbound call is made.  For unhashable sender values
the membership test raises instead and no success response is produced. -/
theorem unauthorized_reply (cfg : Config) (net : Network) (payload msg s c m : Json)
    (hmsg : getMessage payload = .ok msg) (hfal : msg.falsy = false)
    (hex : extractIds msg = .ok (s, c, m))
    (hs : s.isNull = false) (hc : c.isNull = false) (hm : m.isNull = false)
    (hhash : s.hashable = true)
    (hauth : inAllowed cfg s = false) :
    webhook_handler cfg (some payload) net =
      .response 200
        (if cfg.replyUnauthorized then [ApiCall.sendMessage s unauthorizedText] else []) := by
  have hred : webhook_handler cfg (some payload) net = afterExtract cfg s c m net := by
    simp [webhook_handler, handleParsed, hmsg, hfal, hex]
  rw [hred]
  simp [afterExtract, hs, hc, hm, hhash, hauth]

theorem unauthorized_reply_witness :
    getMessage (exampleUpdate 999 5 42) = Except.ok (exampleMessage 999 5 42) ∧
      (exampleMessage 999 5 42).falsy = false ∧
      extractIds (exampleMessage 999 5 42) =
        Except.ok (Json.num 999, Json.num 5, Json.num 42) ∧
      (Json.num 999).isNull = false ∧
      (Json.num 5).isNull = false ∧
      (Json.num 42).isNull = false ∧
      (Json.num 999).hashable = true ∧
      inAllowed (Config.mk "t" 111 222 true true) (Json.num 999) = false ∧
      webhook_handler (Config.mk "t" 111 222 true true) (some (exampleUpdate 999 5 42))
          (Network.mk .ok false) =
        .response 200
          (if (Config.mk "t" 111 222 true true).replyUnauthorized
            then [ApiCall.sendMessage (Json.num 999) unauthorizedText] else []) :=
  ⟨rfl, rfl, rfl, rfl, rfl, rfl, rfl, rfl,
    unauthorized_reply (Config.mk "t" 111 222 true true) (Network.mk .ok false)
      (exampleUpdate 999 5 42) (exampleMessage 999 5 42)
      (Json.num 999) (Json.num 5) (Json.num 42) rfl rfl rfl rfl rfl rfl rfl rfl⟩

end App

namespace App

/-- C2: for every authorized message the dispatch step issues exactly one
relay call, copyMessage when the copy toggle is set and forwardMessage
otherwise, in both modes with chat_id = the resolved recipient,
from_chat_id = the chat id of the message and message_id = its message
id. -/
theorem dispatch_single_call (cfg : Config) (net : Network)
    (payload msg s c m : Json) (r : Int)
    (hmsg : getMessage payload = .ok msg) (hfal : msg.falsy = false)
    (hex : extractIds msg = .ok (s, c, m))
    (hs : s.isNull = false) (hc : c.isNull = false) (hm : m.isNull = false)
    (hauth : inAllowed cfg s = true)
    (hres : resolveRecipient cfg s = some r) :
    ∃ calls, webhook_handler cfg (some payload) net = .response 200 calls ∧
      calls.filter isRelayCall = [dispatchCall cfg r c m] ∧
      ((cfg.useCopy = true ∧ dispatchCall cfg r c m = .copyMessage (.num r) c m) ∨
        (cfg.useCopy = false ∧ dispatchCall cfg r c m = .forwardMessage (.num r) c m)) := by
  have hrelay : isRelayCall (dispatchCall cfg r c m) = true := by
    cases hcopy : cfg.useCopy <;> simp [dispatchCall, isRelayCall, hcopy]
  have hmode : (cfg.useCopy = true ∧ dispatchCall cfg r c m = .copyMessage (.num r) c m) ∨
      (cfg.useCopy = false ∧ dispatchCall cfg r c m = .forwardMessage (.num r) c m) := by
    cases hcopy : cfg.useCopy
    · exact Or.inr ⟨rfl, by simp [dispatchCall, hcopy]⟩
    · exact Or.inl ⟨rfl, by simp [dispatchCall, hcopy]⟩
  have hhash : s.hashable = true := hashable_of_inAllowed cfg s hauth
  have hred : webhook_handler cfg (some payload) net = afterExtract cfg s c m net := by
    simp [webhook_handler, handleParsed, hmsg, hfal, hex]
  have hae : afterExtract cfg s c m net =
      (match net.dispatchOutcome with
        | .ok => .response 200 [dispatchCall cfg r c m]
        | .httpError =>
            .response 200 [dispatchCall cfg r c m, ApiCall.sendMessage s deliveryFailedText]
        | .exn =>
            .response 200 [dispatchCall cfg r c m, ApiCall.sendMessage s internalErrorText]) := by
    simp [afterExtract, hs, hc, hm, hhash, hauth, hres]
  rw [hred, hae]
  cases net.dispatchOutcome
  · exact ⟨_, rfl, by rw [List.filter_cons, hrelay]; simp, hmode⟩
  · exact ⟨_, rfl, by rw [List.filter_cons, hrelay]; simp [List.filter_cons, isRelayCall], hmode⟩
  · exact ⟨_, rfl, by rw [List.filter_cons, hrelay]; simp [List.filter_cons, isRelayCall], hmode⟩

theorem dispatch_single_call_witness :
    getMessage (exampleUpdate 111 111 42) = Except.ok (exampleMessage 111 111 42) ∧
      (exampleMessage 111 111 42).falsy = false ∧
      extractIds (exampleMessage 111 111 42) =
        Except.ok (Json.num 111, Json.num 111, Json.num 42) ∧
      (Json.num 111).isNull = false ∧
      (Json.num 42).isNull = false ∧
      inAllowed (Config.mk "t" 111 222 true true) (Json.num 111) = true ∧
      resolveRecipient (Config.mk "t" 111 222 true true) (Json.num 111) = some 222 ∧
      ∃ calls, webhook_handler (Config.mk "t" 111 222 true true)
            (some (exampleUpdate 111 111 42)) (Network.mk .ok false) =
          .response 200 calls ∧
        calls.filter isRelayCall =
          [dispatchCall (Config.mk "t" 111 222 true true) 222 (Json.num 111) (Json.num 42)] ∧
        (((Config.mk "t" 111 222 true true).useCopy = true ∧
            dispatchCall (Config.mk "t" 111 222 true true) 222 (Json.num 111) (Json.num 42) =
              .copyMessage (.num 222) (Json.num 111) (Json.num 42)) ∨
          ((Config.mk "t" 111 222 true true).useCopy = false ∧
            dispatchCall (Config.mk "t" 111 222 true true) 222 (Json.num 111) (Json.num 42) =
              .forwardMessage (.num 222) (Json.num 111) (Json.num 42))) :=
  ⟨rfl, rfl, rfl, rfl, rfl, rfl, rfl,
    dispatch_single_call (Config.mk "t" 111 222 true true) (Network.mk .ok false)
      (exampleUpdate 111 111 42) (exampleMessage 111 111 42)
      (Json.num 111) (Json.num 111) (Json.num 42) 222
      rfl rfl rfl rfl rfl rfl rfl rfl⟩

end App

namespace App

/-- C5: when the relay dispatch returns a non-success HTTP status the
handler still answers 200 to the webhook caller and attempts exactly one
failure-notice sendMessage toward the original sender; whether that notice
itself fails (the notifyFails oracle) cannot change the result, since the
source swallows its failure. -/
theorem dispatch_failure_notice (cfg : Config) (payload msg s c m : Json) (r : Int)
    (b b' : Bool)
    (hmsg : getMessage payload = .ok msg) (hfal : msg.falsy = false)
    (hex : extractIds msg = .ok (s, c, m))
    (hs : s.isNull = false) (hc : c.isNull = false) (hm : m.isNull = false)
    (hauth : inAllowed cfg s = true)
    (hres : resolveRecipient cfg s = some r) :
    webhook_handler cfg (some payload) (Network.mk .httpError b) =
        .response 200 [dispatchCall cfg r c m, ApiCall.sendMessage s deliveryFailedText] ∧
      webhook_handler cfg (some payload) (Network.mk .httpError b) =
        webhook_handler cfg (some payload) (Network.mk .httpError b') := by
  constructor
  · have hhash : s.hashable = true := hashable_of_inAllowed cfg s hauth
    have hred : webhook_handler cfg (some payload) (Network.mk .httpError b) =
        afterExtract cfg s c m (Network.mk .httpError b) := by
      simp [webhook_handler, handleParsed, hmsg, hfal, hex]
    rw [hred]
    simp [afterExtract, hs, hc, hm, hhash, hauth, hres]
  · rfl

theorem dispatch_failure_notice_witness :
    getMessage (exampleUpdate 222 7 9) = Except.ok (exampleMessage 222 7 9) ∧
      (exampleMessage 222 7 9).falsy = false ∧
      extractIds (exampleMessage 222 7 9) =
        Except.ok (Json.num 222, Json.num 7, Json.num 9) ∧
      (Json.num 222).isNull = false ∧
      (Json.num 7).isNull = false ∧
      (Json.num 9).isNull = false ∧
      inAllowed (Config.mk "t" 111 222 true true) (Json.num 222) = true ∧
      resolveRecipient (Config.mk "t" 111 222 true true) (Json.num 222) = some 111 ∧
      (webhook_handler (Config.mk "t" 111 222 true true) (some (exampleUpdate 222 7 9))
            (Network.mk .httpError true) =
          .response 200
            [dispatchCall (Config.mk "t" 111 222 true true) 111 (Json.num 7) (Json.num 9),
              ApiCall.sendMessage (Json.num 222) deliveryFailedText] ∧
        webhook_handler (Config.mk "t" 111 222 true true) (some (exampleUpdate 222 7 9))
            (Network.mk .httpError true) =
          webhook_handler (Config.mk "t" 111 222 true true) (some (exampleUpdate 222 7 9))
            (Network.mk .httpError false)) :=
  ⟨rfl, rfl, rfl, rfl, rfl, rfl, rfl, rfl,
    dispatch_failure_notice (Config.mk "t" 111 222 true true)
      (exampleUpdate 222 7 9) (exampleMessage 222 7 9)
      (Json.num 222) (Json.num 7) (Json.num 9) 111 true false
      rfl rfl rfl rfl rfl rfl rfl rfl⟩

end App
